import Mathlib

/-!
Shallow embedding of the LayerForge canvas node core (canvas_node.py):
the node-keyed storage map, the shared canvas cache with its persistent
shadow copy and execution id, the non-blocking processing lock, the
websocket ingestion handler, the stale-data sweep, and the orchestration
step process_canvas_image. Each definition mirrors one Python function
or code block; timestamps are integers, image tensors and transport
blobs are abstracted into small inductive types that keep exactly the
distinctions the code observes (shape of placeholders, decodability of
blobs, identity of decoded payloads).
-/

namespace LayerForge

/-- Decoded in-memory image tensor. The code only ever builds zero
tensors of a fixed shape (torch.zeros placeholders) or tensors decoded
from a transport blob (RGB for images, L for masks); payload strings
identify the decoded content. -/
inductive Img where
  | zeros (shape : List Nat)
  | fromBlob (payload : String)
  | maskFromBlob (payload : String)
deriving DecidableEq

/-- Transport-form image blob (a base64 data URI in the code): either a
payload that decodes successfully, or corrupt text whose decode raises. -/
inductive Blob where
  | valid (payload : String)
  | corrupt (payload : String)
deriving DecidableEq

/-- Decode of a blob as an RGB image: base64.b64decode plus
Image.open(...).convert(1) on lines 281-286; none models the raised
exception on corrupt data. -/
def decodeImage : Blob → Option Img
  | Blob.valid p => some (Img.fromBlob p)
  | Blob.corrupt _ => none

/-- Decode of a blob as an L-mode mask, lines 289-294. -/
def decodeMask : Blob → Option Img
  | Blob.valid p => some (Img.maskFromBlob p)
  | Blob.corrupt _ => none

/-- Default blank image, torch.zeros((1, 512, 512, 3)) at line 302. -/
def placeholderImage : Img := Img.zeros [1, 512, 512, 3]

/-- Default blank mask, torch.zeros((1, 512, 512)) at line 305. -/
def placeholderMask : Img := Img.zeros [1, 512, 512]

/-- Editor output snapshot stored by the websocket handler at lines
427-431: optional image and mask blobs plus the receive timestamp. -/
structure EditSnapshot where
  image : Option Blob
  mask : Option Blob
  timestamp : Int
deriving DecidableEq

/-- Input snapshot built at lines 221-269 and stored under the key
nodeId plus the literal suffix. The base64 PNG encoding of the input
tensors is abstracted: the snapshot is determined by the tensors and
the fit_on_add flag, exactly as the stored dict is. -/
structure InputData where
  inputImage : Option Img
  inputMask : Option Img
  fitOnAdd : Bool
deriving DecidableEq

/-- Values of the single _canvas_data_storage dict: edit snapshots under
plain node ids, input snapshots under suffixed keys. -/
inductive StorageVal where
  | edit (e : EditSnapshot)
  | input (d : InputData)
deriving DecidableEq

/-- Record written by track_data_flow, lines 138-148. -/
structure FlowRecord where
  timestamp : Int
  stage : String
  status : String
deriving DecidableEq

/-- The shared _canvas_cache class dict, lines 85-91. persistent is
none for the empty starting dict and some pair once
update_persistent_cache has written both keys. -/
structure CanvasCache where
  image : Option Img
  mask : Option Img
  persistent : Option (Option Img × Option Img)
  lastExecutionId : Option String
  dataFlowStatus : String → Option FlowRecord

/-- Whole process state: the storage dict, the shared cache, the unused
_websocket_data table (node id paired with the optional timestamp field
of its entry, the only field the sweep reads), and the processing lock
modelled as a plain held flag, since threading.Lock records no owner. -/
structure NodeState where
  storage : String → Option StorageVal
  cache : CanvasCache
  websocketData : List (Int × Option Int)
  processingLocked : Bool

/-- Pointwise update of a string-keyed map, modelling one dict write or
delete. -/
def upd {α : Type} (m : String → Option α) (k : String) (v : Option α) :
    String → Option α :=
  fun q => if q = k then v else m q

/-- Starting value of the _canvas_cache class dict, lines 85-91. -/
def emptyCache : CanvasCache :=
  { image := none
    mask := none
    persistent := none
    lastExecutionId := none
    dataFlowStatus := fun _ => none }

/-- Process state at class load: empty storage, empty websocket table,
lock free. -/
def emptyState : NodeState :=
  { storage := fun _ => none
    cache := emptyCache
    websocketData := []
    processingLocked := false }

/-- Reading the two optional keys of the persistent dict with .get,
lines 112 and 115; an empty dict yields none for both. -/
def persistentGet (p : Option (Option Img × Option Img)) :
    Option Img × Option Img :=
  match p with
  | none => (none, none)
  | some x => x

/-- restore_cache, lines 102-119, with the wall-clock execution id of
get_execution_id passed in as a parameter. A differing id clears the
live fields and records the new id; a matching id copies each non-none
persistent field back into the live fields. -/
def restoreCache (c : CanvasCache) (currentExecution : String) : CanvasCache :=
  if some currentExecution ≠ c.lastExecutionId then
    { c with image := none, mask := none,
             lastExecutionId := some currentExecution }
  else
    let p := persistentGet c.persistent
    let c1 := if p.1.isSome then { c with image := p.1 } else c
    if p.2.isSome then { c1 with mask := p.2 } else c1

/-- Constructor body at lines 95-100: restore_cache runs only when the
persistent dict is non-empty (dict truthiness). -/
def initNode (c : CanvasCache) (currentExecution : String) : CanvasCache :=
  if c.persistent.isSome then restoreCache c currentExecution else c

/-- update_persistent_cache, lines 128-136: copies both live fields
wholesale into the persistent dict. -/
def updatePersistentCache (c : CanvasCache) : CanvasCache :=
  { c with persistent := some (c.image, c.mask) }

/-- get_cached_data, lines 320-324: the live cache fields. -/
def getCachedData (c : CanvasCache) : Option Img × Option Img :=
  (c.image, c.mask)

/-- track_data_flow, lines 138-148: overwrites the record for this
flow id inside the shared cache dict. -/
def trackDataFlow (c : CanvasCache) (flowId : String) (now : Int)
    (stage status : String) : CanvasCache :=
  { c with
    dataFlowStatus := upd c.dataFlowStatus flowId (some ⟨now, stage, status⟩) }

/-- The pop at lines 275-276: atomically read and remove the storage
entry for the given key, returning the removed value. -/
def takeAndClear (s : NodeState) (nodeId : String) :
    NodeState × Option StorageVal :=
  ({ s with storage := upd s.storage nodeId none }, s.storage nodeId)

/-- One websocket message of handle_canvas_websocket, lines 414-441: a
missing or empty nodeId is rejected, otherwise the entry for that id is
overwritten with the received image, mask and timestamp; the Bool is
the success acknowledgement. -/
def wsReceive (s : NodeState) (nodeId : Option String)
    (image mask : Option Blob) (now : Int) : NodeState × Bool :=
  match nodeId with
  | none => (s, false)
  | some nid =>
    if nid = "" then (s, false)
    else
      ({ s with
          storage := upd s.storage nid
            (some (StorageVal.edit ⟨image, mask, now⟩)) },
       true)

/-- The poll endpoint get_input_data, lines 452-474: a bare dict .get of
the suffixed key under the storage lock; the state is not mutated. -/
def getInputData (s : NodeState) (nodeId : String) :
    NodeState × Option StorageVal :=
  (s, s.storage (nodeId ++ "_input"))

/-- clear_input_data, lines 483-507: deletes the suffixed entry when
present; clearing an absent entry is also a success. -/
def clearInputData (s : NodeState) (nodeId : String) : NodeState :=
  { s with storage := upd s.storage (nodeId ++ "_input") none }

/-- _cleanup_old_websocket_data, lines 379-405: drops entries of the
_websocket_data table whose id is negative or whose timestamp field
(defaulting to 0) is more than 300 seconds behind the given time. No
code path of the module ever invokes it. -/
def cleanupOldWebsocketData (ws : List (Int × Option Int))
    (currentTime : Int) : List (Int × Option Int) :=
  ws.filter (fun e =>
    !(decide (e.1 < 0)) && !(decide (currentTime - e.2.getD 0 > 300)))

/-- The sweep viewed as a state operation: it touches only the
_websocket_data table. -/
def cleanupOp (s : NodeState) (now : Int) : NodeState :=
  { s with websocketData := cleanupOldWebsocketData s.websocketData now }

/-- Abstract trace events recording which statements of the guarded
region of process_canvas_image executed, in source order: the input
store at line 269, the pop at line 276, the persistent-cache copy at
line 308, the lock release in the finally block at lines 315-318, and
a restore_cache call (which the step never performs). -/
inductive Event where
  | storeInput
  | popEdit
  | restoreCall
  | updatePersistent
  | releaseGuard
deriving DecidableEq

/-- Field reads canvas_data.get at lines 280 and 289 on the popped
value: only an edit snapshot carries the image and mask keys. -/
def editFields : Option StorageVal → Option Blob × Option Blob
  | some (StorageVal.edit e) => (e.image, e.mask)
  | some (StorageVal.input _) => (none, none)
  | none => (none, none)

/-- Result of process_canvas_image: the normal and exception paths
return a tuple (lines 310 and 314), while the skipped path returns the
get_cached_data dict (line 216). -/
inductive ProcResult where
  | tuple (image mask : Option Img)
  | dict (image mask : Option Img)
deriving DecidableEq

/-- Tail of the success path, lines 299-310: substitute the fixed-size
placeholders for missing outputs, copy the live cache fields into the
persistent dict, release the lock in the finally block, and return the
tuple. -/
def finishStep (s : NodeState) (pimg pmsk : Option Img) :
    NodeState × ProcResult × List Event :=
  let image := pimg.getD placeholderImage
  let mask := pmsk.getD placeholderMask
  ({ s with cache := updatePersistentCache s.cache, processingLocked := false },
   ProcResult.tuple (some image) (some mask),
   [Event.storeInput, Event.popEdit, Event.updatePersistent,
    Event.releaseGuard])

/-- Decode block at lines 278-295, applied to the image and mask fields
of the popped entry in source order: the image blob is decoded first,
then the mask blob; none models an exception escaping the block (a
corrupt blob), some carries the decoded processed_image and
processed_mask values. -/
def decodeEdit : Option Blob × Option Blob → Option (Option Img × Option Img)
  | (some ib, mb) =>
    match decodeImage ib with
    | none => none
    | some i =>
      match mb with
      | some mb2 =>
        match decodeMask mb2 with
        | none => none
        | some m => some (some i, some m)
      | none => some (some i, none)
  | (none, some mb2) =>
    match decodeMask mb2 with
    | none => none
    | some m => some (none, some m)
  | (none, none) => some (none, none)

/-- Guarded region after a successful acquire, lines 275-318: pop the
edit entry for the node id, run the decode block; if it raises, the
except clause returns the none tuple and the finally block releases the
lock; otherwise finish the success path. -/
def processAcquired (s2 : NodeState) (nodeId : String) :
    NodeState × ProcResult × List Event :=
  match decodeEdit (editFields (takeAndClear s2 nodeId).2) with
  | none =>
    ({ (takeAndClear s2 nodeId).1 with processingLocked := false },
     ProcResult.tuple none none,
     [Event.storeInput, Event.popEdit, Event.releaseGuard])
  | some (pimg, pmsk) => finishStep (takeAndClear s2 nodeId).1 pimg pmsk

/-- process_canvas_image, lines 212-318. A failed non-blocking acquire
returns the cached dict, but the finally block still observes the lock
held (by the in-flight call) and releases it. On acquire the step
stores the input snapshot under the suffixed key and runs the guarded
region. -/
def processCanvasImage (s : NodeState) (nodeId : String) (fitOnAdd : Bool)
    (inputImage inputMask : Option Img) :
    NodeState × ProcResult × List Event :=
  if s.processingLocked then
    ({ s with processingLocked := false },
     ProcResult.dict (getCachedData s.cache).1 (getCachedData s.cache).2,
     [Event.releaseGuard])
  else
    processAcquired
      { s with
        processingLocked := true
        storage := upd s.storage (nodeId ++ "_input")
          (some (StorageVal.input ⟨inputImage, inputMask, fitOnAdd⟩)) }
      nodeId

/-! Helper lemmas shared by several results. -/

/-- A node id never equals itself with the input suffix appended, so the
input write and the edit pop act on distinct storage keys. -/
theorem self_ne_append_input (nid : String) : ¬ nid = nid ++ "_input" := by
  intro h
  have h2 := congrArg String.length h
  rw [String.length_append] at h2
  have h3 : ("_input" : String).length = 6 := rfl
  omega

/-- Symmetric form of the distinct-keys fact. -/
theorem append_input_ne_self (nid : String) : ¬ nid ++ "_input" = nid := by
  intro h
  exact self_ne_append_input nid h.symm

/-- restore_cache always leaves the current execution id recorded. -/
theorem restoreCache_lastExecutionId (c : CanvasCache) (e : String) :
    (restoreCache c e).lastExecutionId = some e := by
  unfold restoreCache
  split
  · rfl
  · rename_i h
    rw [ne_eq, not_not] at h
    dsimp only
    split <;> split <;> exact h.symm

/-- restore_cache never writes the persistent dict. -/
theorem restoreCache_persistent (c : CanvasCache) (e : String) :
    (restoreCache c e).persistent = c.persistent := by
  unfold restoreCache
  split
  · rfl
  · dsimp only
    split <;> split <;> rfl

/-- Execution-reset branch of restore_cache: a differing id clears the
live fields and records the new id. -/
theorem restoreCache_reset (c : CanvasCache) (e : String)
    (h : some e ≠ c.lastExecutionId) :
    (restoreCache c e).image = none ∧ (restoreCache c e).mask = none ∧
    (restoreCache c e).lastExecutionId = some e := by
  unfold restoreCache
  rw [if_pos h]
  exact ⟨rfl, rfl, rfl⟩

/-- Same-execution branch of restore_cache: a matching id copies the
non-none persistent fields into the live fields. -/
theorem restoreCache_same (c : CanvasCache) (e : String) (i m : Img)
    (hl : c.lastExecutionId = some e)
    (hp : c.persistent = some (some i, some m)) :
    (restoreCache c e).image = some i ∧ (restoreCache c e).mask = some m := by
  unfold restoreCache
  rw [hl, hp]
  simp [persistentGet]

/-- The step never writes the live cache fields on any path. -/
theorem processCanvasImage_live (s : NodeState) (nid : String) (fit : Bool)
    (ii im : Option Img) :
    (processCanvasImage s nid fit ii im).1.cache.image = s.cache.image ∧
    (processCanvasImage s nid fit ii im).1.cache.mask = s.cache.mask := by
  unfold processCanvasImage processAcquired finishStep updatePersistentCache
    takeAndClear
  split
  · exact ⟨rfl, rfl⟩
  · split
    · exact ⟨rfl, rfl⟩
    · exact ⟨rfl, rfl⟩

/-- Either-unchanged-or-wholesale description of how an operation
treats the persistent shadow copy. -/
def persistentOk (c c2 : CanvasCache) : Prop :=
  c2.persistent = c.persistent ∨ c2.persistent = some (c.image, c.mask)

/-- The step either leaves the persistent dict alone (skip and
exception paths) or copies the live pair into it wholesale (success
path). -/
theorem processCanvasImage_persistentOk (s : NodeState) (nid : String)
    (fit : Bool) (ii im : Option Img) :
    persistentOk s.cache (processCanvasImage s nid fit ii im).1.cache := by
  unfold persistentOk processCanvasImage processAcquired finishStep
    updatePersistentCache takeAndClear
  split
  · exact Or.inl rfl
  · split
    · exact Or.inl rfl
    · exact Or.inr rfl

/-! Concrete states used by counterexamples and witnesses. -/

/-- State holding one decodable edit snapshot for node id 1, received at
time 0. -/
def stateWithEdit : NodeState :=
  { emptyState with
    storage := upd emptyState.storage "1"
      (some (StorageVal.edit ⟨some (Blob.valid "A"), none, 0⟩)) }

/-- State holding one corrupt edit snapshot for node id 1. -/
def stateWithCorrupt : NodeState :=
  { emptyState with
    storage := upd emptyState.storage "1"
      (some (StorageVal.edit ⟨some (Blob.corrupt "xx"), none, 0⟩)) }

/-- Cache whose persistent dict is non-empty, as the constructor check
requires. -/
def witnessPersistentCache : CanvasCache :=
  { emptyCache with persistent := some (none, none) }

/-! Claim results. -/

/-- C1, counterexample: a successful run of the step produces a decoded
image with the placeholder mask, yet the cache live fields do not hold
that pair afterwards, and a later caller that fails tryEnter is served
the old live fields, not the produced pair. -/
theorem C1_counterexample :
    (processCanvasImage stateWithEdit "1" false none none).2.1 =
      ProcResult.tuple (some (Img.fromBlob "A")) (some placeholderMask) ∧
    ¬ (processCanvasImage stateWithEdit "1" false none none).1.cache.image =
        some (Img.fromBlob "A") ∧
    ¬ (processCanvasImage
        { (processCanvasImage stateWithEdit "1" false none none).1 with
          processingLocked := true } "1" false none none).2.1 =
        ProcResult.dict (some (Img.fromBlob "A")) (some placeholderMask) := by
  decide

/-- C1, amended: the step never writes the cache live fields on any
path, so a caller whose tryEnter fails is returned the live pair as it
was before the successful run, not the produced outputs. -/
theorem C1_amended_theorem (s : NodeState) (nid : String) (fit : Bool)
    (ii im : Option Img) :
    ((processCanvasImage s nid fit ii im).1.cache.image = s.cache.image ∧
     (processCanvasImage s nid fit ii im).1.cache.mask = s.cache.mask) ∧
    (s.processingLocked = true →
      (processCanvasImage s nid fit ii im).2.1 =
        ProcResult.dict s.cache.image s.cache.mask) := by
  refine ⟨processCanvasImage_live s nid fit ii im, fun h => ?_⟩
  unfold processCanvasImage
  rw [h]
  rfl

/-- C1, witness for the amended theorem at a concrete locked state. -/
theorem C1_amended_witness :
    (processCanvasImage { emptyState with processingLocked := true } "1" false
      none none).2.1 = ProcResult.dict none none :=
  (C1_amended_theorem { emptyState with processingLocked := true } "1" false
    none none).2 rfl

/-- C2, evaluation at the failing input: with the guard held by an
in-flight call, a second call whose tryEnter fails still reaches the
finally block, finds the lock held and releases it, so after the
skipped call the guard is no longer held. -/
theorem C2_bug_eval :
    (processCanvasImage { emptyState with processingLocked := true } "2" false
      none none).1.processingLocked = false ∧
    (processCanvasImage { emptyState with processingLocked := true } "2" false
      none none).2.2 = [Event.releaseGuard] := by
  decide

/-- C3, counterexample: on an undecodable image blob the step returns
the none pair from its except clause, not the structurally valid
placeholder pair the claim requires. -/
theorem C3_counterexample :
    (processCanvasImage stateWithCorrupt "1" false none none).2.1 =
      ProcResult.tuple none none ∧
    ¬ (processCanvasImage stateWithCorrupt "1" false none none).2.1 =
        ProcResult.tuple (some placeholderImage) (some placeholderMask) := by
  decide

/-- C3, amended: a decode error is caught inside the step (the model of
the step is a total function, so nothing propagates), the guard is
released, the cache is untouched, and the returned value is the none
pair rather than the placeholder pair. -/
theorem C3_amended_theorem (s : NodeState) (nid : String) (fit : Bool)
    (ii im : Option Img) (e : EditSnapshot) (j : String)
    (hlock : s.processingLocked = false)
    (hentry : s.storage nid = some (StorageVal.edit e))
    (himg : e.image = some (Blob.corrupt j)) :
    (processCanvasImage s nid fit ii im).2.1 = ProcResult.tuple none none ∧
    (processCanvasImage s nid fit ii im).1.processingLocked = false ∧
    (processCanvasImage s nid fit ii im).1.cache = s.cache := by
  refine ⟨?_, ?_, ?_⟩ <;>
    simp [processCanvasImage, processAcquired, takeAndClear, editFields,
      decodeEdit, decodeImage, upd, hlock, hentry, himg,
      self_ne_append_input nid]

/-- C3, witness for the amended theorem at the concrete corrupt state. -/
theorem C3_amended_witness :
    (processCanvasImage stateWithCorrupt "1" false none none).2.1 =
      ProcResult.tuple none none ∧
    (processCanvasImage stateWithCorrupt "1" false none
      none).1.processingLocked = false :=
  ⟨(C3_amended_theorem stateWithCorrupt "1" false none none
      ⟨some (Blob.corrupt "xx"), none, 0⟩ "xx" rfl (by decide) rfl).1,
   (C3_amended_theorem stateWithCorrupt "1" false none none
      ⟨some (Blob.corrupt "xx"), none, 0⟩ "xx" rfl (by decide) rfl).2.1⟩

/-- C4, counterexample: a concrete acquired run of the step emits the
trace store-input, pop, persistent-copy, release, and no
restore_cache call occurs anywhere in it, contradicting the claimed
restore before the pop. -/
theorem C4_counterexample :
    (processCanvasImage emptyState "1" false none none).2.2 =
      [Event.storeInput, Event.popEdit, Event.updatePersistent,
       Event.releaseGuard] ∧
    ¬ Event.restoreCall ∈
        (processCanvasImage emptyState "1" false none none).2.2 := by
  decide

/-- C4, amended: an acquired step stores the input snapshot and then
pops the edit entry, never calling restore_cache; the execution-id
comparison and restore happen only in the node constructor, and only
when the persistent dict is non-empty. -/
theorem C4_amended_theorem (s : NodeState) (nid : String) (fit : Bool)
    (ii im : Option Img) (c : CanvasCache) (e : String)
    (hlock : s.processingLocked = false)
    (hpers : c.persistent.isSome = true) :
    ((processCanvasImage s nid fit ii im).2.2).take 2 =
      [Event.storeInput, Event.popEdit] ∧
    ¬ Event.restoreCall ∈ (processCanvasImage s nid fit ii im).2.2 ∧
    (processCanvasImage s nid fit ii im).1.storage (nid ++ "_input") =
      some (StorageVal.input ⟨ii, im, fit⟩) ∧
    initNode c e = restoreCache c e := by
  have hinit : initNode c e = restoreCache c e := by
    unfold initNode
    rw [if_pos hpers]
  refine ⟨?_, ?_, ?_, hinit⟩ <;>
  · simp only [processCanvasImage, hlock, Bool.false_eq_true, if_false,
      processAcquired, takeAndClear, finishStep]
    split <;>
      simp [upd, append_input_ne_self nid]

/-- C4, witness for the amended theorem at concrete inputs. -/
theorem C4_amended_witness :
    ¬ Event.restoreCall ∈
        (processCanvasImage emptyState "1" false none none).2.2 ∧
    initNode witnessPersistentCache "7" =
      restoreCache witnessPersistentCache "7" :=
  ⟨(C4_amended_theorem emptyState "1" false none none witnessPersistentCache
      "7" rfl rfl).2.1,
   (C4_amended_theorem emptyState "1" false none none witnessPersistentCache
      "7" rfl rfl).2.2.2⟩

/-- C5, counterexample: an edit snapshot received at time 0 is still
returned by takeAndClear at time 400, beyond the 300-second staleness
threshold and with the sweep explicitly invoked in between, so a stale
entry is not absent as the claim requires. -/
theorem C5_counterexample :
    (takeAndClear (cleanupOp stateWithEdit 400) "1").2 =
      some (StorageVal.edit ⟨some (Blob.valid "A"), none, 0⟩) ∧
    ¬ (takeAndClear (cleanupOp stateWithEdit 400) "1").2 = none := by
  decide

/-- C5, amended: the sweep only filters the separate websocket table
(where it does evict entries older than 300 seconds), leaves the
push-channel storage untouched, and takeAndClear returns the stored
entry for a node id regardless of its age. -/
theorem C5_amended_theorem (s : NodeState) (nid : String) (now : Int)
    (ws : List (Int × Option Int)) (p : Int × Option Int)
    (hstale : now - p.2.getD 0 > 300) :
    (takeAndClear (cleanupOp s now) nid).2 = s.storage nid ∧
    (cleanupOp s now).storage = s.storage ∧
    ¬ p ∈ cleanupOldWebsocketData ws now := by
  refine ⟨rfl, rfl, ?_⟩
  intro hmem2
  rw [cleanupOldWebsocketData, List.mem_filter] at hmem2
  have h2 := hmem2.2
  simp at h2
  omega

/-- C5, witness for the amended theorem at concrete inputs. -/
theorem C5_amended_witness :
    (takeAndClear (cleanupOp stateWithEdit 400) "1").2 =
      stateWithEdit.storage "1" ∧
    ¬ (5, some 0) ∈ cleanupOldWebsocketData [(5, some 0)] 400 :=
  ⟨(C5_amended_theorem stateWithEdit "1" 400 [(5, some 0)] (5, some 0)
      (by decide)).1,
   (C5_amended_theorem stateWithEdit "1" 400 [(5, some 0)] (5, some 0)
      (by decide)).2.2⟩

/-- C6: after a receive for a node id, takeAndClear returns exactly the
received snapshot (last-write-wins); an immediately following second
takeAndClear returns absent; and after a new receive for the same id
the new snapshot is returned again. -/
theorem C6_pop_once (s : NodeState) (nid : String) (img msk : Option Blob)
    (t : Int) (h : ¬ nid = "") :
    (takeAndClear (wsReceive s (some nid) img msk t).1 nid).2 =
      some (StorageVal.edit ⟨img, msk, t⟩) ∧
    (takeAndClear (takeAndClear (wsReceive s (some nid) img msk t).1 nid).1
      nid).2 = none ∧
    (∀ img2 msk2 t2,
      (takeAndClear (wsReceive
        (takeAndClear (takeAndClear (wsReceive s (some nid) img msk t).1
          nid).1 nid).1
        (some nid) img2 msk2 t2).1 nid).2 =
      some (StorageVal.edit ⟨img2, msk2, t2⟩)) := by
  refine ⟨?_, ?_, fun img2 msk2 t2 => ?_⟩ <;>
    simp [wsReceive, takeAndClear, upd, h]

/-- C6, witness at a concrete node id and snapshot. -/
theorem C6_pop_once_witness :
    (takeAndClear (wsReceive emptyState (some "n1") (some (Blob.valid "A"))
      none 5).1 "n1").2 =
      some (StorageVal.edit ⟨some (Blob.valid "A"), none, 5⟩) ∧
    (takeAndClear (takeAndClear (wsReceive emptyState (some "n1")
      (some (Blob.valid "A")) none 5).1 "n1").1 "n1").2 = none :=
  ⟨(C6_pop_once emptyState "n1" (some (Blob.valid "A")) none 5 (by decide)).1,
   (C6_pop_once emptyState "n1" (some (Blob.valid "A")) none 5
      (by decide)).2.1⟩

/-- C7: with the cache on execution e1 and live fields img and msk at
commit time, the persistent copy then holds (img, msk); a restore with
a different id e2 empties the live fields and records e2, while
restoring twice with e1 yields the committed img and msk both times. -/
theorem C7_execution_cache (c : CanvasCache) (e1 e2 : String) (i m : Img)
    (himg : (restoreCache c e1).image = some i)
    (hmsk : (restoreCache c e1).mask = some m)
    (hne : e2 ≠ e1) :
    ((restoreCache (updatePersistentCache (restoreCache c e1)) e2).image =
        none ∧
     (restoreCache (updatePersistentCache (restoreCache c e1)) e2).mask =
        none ∧
     (restoreCache (updatePersistentCache (restoreCache c e1))
        e2).lastExecutionId = some e2) ∧
    ((restoreCache (updatePersistentCache (restoreCache c e1)) e1).image =
        some i ∧
     (restoreCache (updatePersistentCache (restoreCache c e1)) e1).mask =
        some m) ∧
    ((restoreCache (restoreCache (updatePersistentCache (restoreCache c e1))
        e1) e1).image = some i ∧
     (restoreCache (restoreCache (updatePersistentCache (restoreCache c e1))
        e1) e1).mask = some m) := by
  have hl2 : (updatePersistentCache (restoreCache c e1)).lastExecutionId =
      some e1 := restoreCache_lastExecutionId c e1
  have hp2 : (updatePersistentCache (restoreCache c e1)).persistent =
      some (some i, some m) := by
    show some ((restoreCache c e1).image, (restoreCache c e1).mask) = _
    rw [himg, hmsk]
  have hreset := restoreCache_reset (updatePersistentCache (restoreCache c e1))
    e2 (by rw [hl2]; simp [hne])
  have hsame := restoreCache_same (updatePersistentCache (restoreCache c e1))
    e1 i m hl2 hp2
  have hl3 : (restoreCache (updatePersistentCache (restoreCache c e1))
      e1).lastExecutionId = some e1 := restoreCache_lastExecutionId _ e1
  have hp3 : (restoreCache (updatePersistentCache (restoreCache c e1))
      e1).persistent = some (some i, some m) :=
    (restoreCache_persistent _ e1).trans hp2
  have hsame2 := restoreCache_same _ e1 i m hl3 hp3
  exact ⟨hreset, hsame, hsame2⟩

/-- Cache already on execution 1 with live fields holding two distinct
tensors, used as the C7 witness input. -/
def liveCache : CanvasCache :=
  { emptyCache with
    image := some (Img.zeros [2])
    mask := some (Img.zeros [3])
    lastExecutionId := some "1" }

/-- C7, witness at a concrete cache already on execution 1 with live
fields holding two distinct tensors. -/
theorem C7_execution_cache_witness :
    (restoreCache (updatePersistentCache (restoreCache liveCache "1"))
      "2").image = none ∧
    (restoreCache (updatePersistentCache (restoreCache liveCache "1"))
      "1").image = some (Img.zeros [2]) :=
  ⟨(C7_execution_cache liveCache "1" "2" (Img.zeros [2]) (Img.zeros [3])
      (by decide) (by decide) (by decide)).1.1,
   (C7_execution_cache liveCache "1" "2" (Img.zeros [2]) (Img.zeros [3])
      (by decide) (by decide) (by decide)).2.1.1⟩

/-- C8: an acquired run with no push-channel entry for the node id and
an empty cache returns the tuple of fixed-size zero placeholders, never
an absent result. -/
theorem C8_default_placeholder (s : NodeState) (nid : String) (fit : Bool)
    (ii im : Option Img)
    (hlock : s.processingLocked = false)
    (hentry : s.storage nid = none)
    (_hci : s.cache.image = none) (_hcm : s.cache.mask = none) :
    (processCanvasImage s nid fit ii im).2.1 =
      ProcResult.tuple (some placeholderImage) (some placeholderMask) ∧
    placeholderImage = Img.zeros [1, 512, 512, 3] ∧
    placeholderMask = Img.zeros [1, 512, 512] := by
  refine ⟨?_, rfl, rfl⟩
  simp [processCanvasImage, processAcquired, takeAndClear, editFields,
    decodeEdit, finishStep, upd, hlock, hentry, self_ne_append_input nid]

/-- C8, witness at the empty state. -/
theorem C8_default_placeholder_witness :
    (processCanvasImage emptyState "1" false none none).2.1 =
      ProcResult.tuple (some placeholderImage) (some placeholderMask) :=
  (C8_default_placeholder emptyState "1" false none none rfl rfl rfl rfl).1

/-- C9: every operation of the core either leaves the persistent shadow
copy unchanged or replaces it wholesale with the current live pair;
no operation writes only one of its fields. -/
theorem C9_persistent_wholesale (s : NodeState) (c : CanvasCache)
    (nodeIdOpt : Option String) (nid fid stage status e : String)
    (img msk : Option Blob) (t now : Int) (fit : Bool) (ii im : Option Img) :
    persistentOk s.cache (wsReceive s nodeIdOpt img msk t).1.cache ∧
    persistentOk s.cache (takeAndClear s nid).1.cache ∧
    persistentOk s.cache (getInputData s nid).1.cache ∧
    persistentOk s.cache (clearInputData s nid).cache ∧
    persistentOk s.cache (cleanupOp s now).cache ∧
    persistentOk c (restoreCache c e) ∧
    persistentOk c (updatePersistentCache c) ∧
    persistentOk c (trackDataFlow c fid now stage status) ∧
    persistentOk c (initNode c e) ∧
    persistentOk s.cache (processCanvasImage s nid fit ii im).1.cache := by
  unfold persistentOk
  refine ⟨?_, Or.inl rfl, Or.inl rfl, Or.inl rfl, Or.inl rfl,
    Or.inl (restoreCache_persistent c e), Or.inr rfl, Or.inl rfl, ?_,
    processCanvasImage_persistentOk s nid fit ii im⟩
  · cases nodeIdOpt with
    | none => exact Or.inl rfl
    | some nid2 =>
      unfold wsReceive
      dsimp only
      split
      · exact Or.inl rfl
      · exact Or.inl rfl
  · unfold initNode
    split
    · exact Or.inl (restoreCache_persistent c e)
    · exact Or.inl rfl

/-- C10: the input-data poll endpoint is a pure read: it returns the
state unchanged, every storage entry is preserved, and two successive
polls for the same id return the same snapshot. -/
theorem C10_poll_pure (s : NodeState) (nid : String) :
    (getInputData s nid).1 = s ∧
    (∀ k, (getInputData s nid).1.storage k = s.storage k) ∧
    (getInputData (getInputData s nid).1 nid).2 = (getInputData s nid).2 :=
  ⟨rfl, fun _ => rfl, rfl⟩

end LayerForge
